import Mathlib

/-!
Verification of the expense-tracker service in `src/main.py`.

The file shallowly embeds the SQLite-backed state and the five public
operations (`add_expense`, `list_expenses`, `summarize`, `update`, `delete`)
as pure Lean functions over an explicit database state, and proves the
specification's properties about them.

Modelling conventions:
* the `expenses` table is a list of rows plus the AUTOINCREMENT counter
  (AUTOINCREMENT never reuses a rowid, so the counter only grows);
* SQLite compares TEXT with memcmp over UTF-8 bytes, which coincides with
  lexicographic order on Unicode code points; `strLe` implements exactly that;
* SQL REAL amounts are modelled as rationals: none of the verified
  properties depends on rounding, only on which rows are aggregated;
* each Python return value is mirrored by one constructor of a result type,
  so the distinct shapes the code returns (row lists, status dicts, the bare
  set literal in `update`) stay distinguishable.
-/

namespace ExpenseTracker

/-- One row of the `expenses` table, as created by `init_db`. -/
structure ExpenseRecord where
  id : Nat
  date : String
  amount : ℚ
  category : String
  subcategory : String
  note : String
deriving Repr, DecidableEq

/-- Database state: the rows of the `expenses` table in rowid order together
with the AUTOINCREMENT counter for the next `id`. -/
structure DB where
  expenses : List ExpenseRecord
  nextId : Nat
deriving Repr, DecidableEq

/-- State produced by `init_db` on a fresh file: empty table, ids start at 1. -/
def init_db : DB := ⟨[], 1⟩

/-- Lexicographic comparison of code-point sequences; this is SQLite's BINARY
collation (memcmp on UTF-8 bytes) restricted to valid strings. -/
def charListLe : List Char → List Char → Bool
  | [], _ => true
  | _ :: _, [] => false
  | a :: as, b :: bs =>
    if a.toNat < b.toNat then true
    else if b.toNat < a.toNat then false
    else charListLe as bs

/-- String comparison used by every `date BETWEEN ? AND ?` clause. -/
def strLe (a b : String) : Bool := charListLe a.data b.data

/-- Meaning of `date BETWEEN start AND end` for a stored date `d`: inclusive
bounds, compared as strings. -/
def dateInRange (s e d : String) : Bool := strLe s d && strLe d e

/-- Return value of `add_expense`: the dict `{"status": "ok", "id": cur.lastrowid}`. -/
structure AddResult where
  status : String
  id : Nat
deriving Repr, DecidableEq

/-- Tool `add_expense(date, amount, category, subcategory, note)`: INSERT the
row, assign the next AUTOINCREMENT id, return it with status "ok". -/
def add_expense (db : DB) (date : String) (amount : ℚ) (category : String)
    (subcategory : String) (note : String) : AddResult × DB :=
  let r : ExpenseRecord := ⟨db.nextId, date, amount, category, subcategory, note⟩
  (⟨"ok", db.nextId⟩, ⟨db.expenses ++ [r], db.nextId + 1⟩)

/-- Row order required by `ORDER BY id asc`. -/
def leById (a b : ExpenseRecord) : Prop := a.id ≤ b.id

instance : DecidableRel leById := fun a b => Nat.decLe a.id b.id

instance : IsTotal ExpenseRecord leById := ⟨fun a b => Nat.le_total a.id b.id⟩

instance : IsTrans ExpenseRecord leById := ⟨fun _ _ _ hab hbc => Nat.le_trans hab hbc⟩

/-- Tool `list_expenses(start_date, end_date)`:
`SELECT * FROM expenses WHERE date BETWEEN ? AND ? ORDER BY id asc`.
A pure read: the state component of the result is the input state. -/
def list_expenses (db : DB) (start_date end_date : String) :
    List ExpenseRecord × DB :=
  ((db.expenses.filter (fun r => dateInRange start_date end_date r.date)).insertionSort leById,
    db)

/-- Order of summary rows required by `ORDER BY total_amount asc`. -/
def leByTotal (a b : String × ℚ) : Prop := a.2 ≤ b.2

instance : DecidableRel leByTotal := fun a b => inferInstanceAs (Decidable (a.2 ≤ b.2))

instance : IsTotal (String × ℚ) leByTotal := ⟨fun a b => le_total a.2 b.2⟩

instance : IsTrans (String × ℚ) leByTotal := ⟨fun _ _ _ hab hbc => le_trans hab hbc⟩

/-- Tool `summarize(start_date, end_date, category)`: rows with `date` in the
inclusive range, narrowed to one category when `category` is truthy
(`if category:` in Python holds exactly when the string is non-empty),
grouped by `category` with `SUM(amount)`, ordered by ascending total.
Each output pair is one `{"category": c, "total_amount": t}` row. -/
def summarize (db : DB) (start_date end_date : String) (category : String) :
    List (String × ℚ) :=
  let matching := db.expenses.filter (fun r =>
    dateInRange start_date end_date r.date && (category == "" || r.category == category))
  let rows := ((matching.map (fun r => r.category)).dedup).map (fun c =>
    (c, ((matching.filter (fun r => r.category == c)).map (fun r => r.amount)).sum))
  rows.insertionSort leByTotal

/-- Return values of `update`, one constructor per `return` in the source:
`setMsg` is the Python set literal `{"No fields provided to update"}` — a set
holding one string, with no keys; `rowList` is the list of row dicts produced
by the re-read `SELECT`; `errorDict` is the dict `{"error": msg}`. -/
inductive UpdateResult where
  | setMsg (msg : String)
  | rowList (rows : List ExpenseRecord)
  | errorDict (msg : String)
deriving Repr, DecidableEq

/-- Predicate from the specification's error taxonomy: a return value counts
as a structured status/error object when it is a dict carrying a `status` or
`error` key. Among `update`'s returns only `errorDict` qualifies: `setMsg`
is a set with no keys at all and `rowList` is a list of row dicts. -/
def UpdateResult.isStatusOrErrorObject : UpdateResult → Bool
  | .errorDict _ => true
  | _ => false

/-- SET-clause application of `update` to one row: exactly the supplied
fields are overwritten, `id` is untouched. -/
def applySet (date : Option String) (amount : Option ℚ)
    (category subcategory note : Option String) (r : ExpenseRecord) : ExpenseRecord :=
  { r with
    date := date.getD r.date
    amount := amount.getD r.amount
    category := category.getD r.category
    subcategory := subcategory.getD r.subcategory
    note := note.getD r.note }

/-- Tool `update(cid, date, amount, category, subcategory, note)`: when no
field is supplied, return the set literal and change nothing; otherwise run
`UPDATE expenses SET ... WHERE id=?`, then re-read `SELECT * WHERE id=?` and
return the rows, or the `{"error": ...}` dict when no row has that id. -/
def update (db : DB) (cid : Nat) (date : Option String) (amount : Option ℚ)
    (category subcategory note : Option String) : UpdateResult × DB :=
  if date.isNone && amount.isNone && category.isNone && subcategory.isNone && note.isNone then
    (.setMsg "No fields provided to update", db)
  else
    let expenses := db.expenses.map (fun r =>
      if r.id == cid then applySet date amount category subcategory note r else r)
    let rows := expenses.filter (fun r => r.id == cid)
    if rows.isEmpty then
      (.errorDict ("No expense found with id " ++ toString cid), ⟨expenses, db.nextId⟩)
    else
      (.rowList rows, ⟨expenses, db.nextId⟩)

/-- Scalar values that can appear in `delete`'s echoed criteria dict. -/
inductive PyVal where
  | int (n : Nat)
  | str (s : String)
  | num (q : ℚ)
deriving Repr, DecidableEq

/-- Return values of `delete`, one constructor per `return` dict in the
source: `errorRes` is `{"status": "error", "message": msg}`; `successRes` is
`{"status": "success", "message": msg, "deleted_count": n, "criteria": c}`;
`warningRes` is `{"status": "warning", "message": msg, "deleted_count": n}`
and carries no criteria key. -/
inductive DeleteResult where
  | errorRes (message : String)
  | successRes (message : String) (deleted_count : Nat) (criteria : List (String × PyVal))
  | warningRes (message : String) (deleted_count : Nat)
deriving Repr, DecidableEq

/-- Value of the "status" key of a `delete` result dict. -/
def DeleteResult.status : DeleteResult → String
  | .errorRes _ => "error"
  | .successRes _ _ _ => "success"
  | .warningRes _ _ => "warning"

/-- Value of the "deleted_count" key of a `delete` result dict, when present. -/
def DeleteResult.deletedCount : DeleteResult → Option Nat
  | .errorRes _ => none
  | .successRes _ n _ => some n
  | .warningRes _ n => some n

/-- Value of the "criteria" key of a `delete` result dict, when present. -/
def DeleteResult.criteriaEcho : DeleteResult → Option (List (String × PyVal))
  | .errorRes _ => none
  | .successRes _ _ c => some c
  | .warningRes _ _ => none

/-- The dict comprehension at the end of `delete`: in key order id, date,
category, subcategory, amount, note, start_date, end_date, keep exactly the
parameters whose value is not None. -/
def suppliedCriteria (id : Option Nat) (date category subcategory : Option String)
    (amount : Option ℚ) (note : Option String) (start_date end_date : Option String) :
    List (String × PyVal) :=
  (id.map (fun v => ("id", PyVal.int v))).toList ++
  (date.map (fun v => ("date", PyVal.str v))).toList ++
  (category.map (fun v => ("category", PyVal.str v))).toList ++
  (subcategory.map (fun v => ("subcategory", PyVal.str v))).toList ++
  (amount.map (fun v => ("amount", PyVal.num v))).toList ++
  (note.map (fun v => ("note", PyVal.str v))).toList ++
  (start_date.map (fun v => ("start_date", PyVal.str v))).toList ++
  (end_date.map (fun v => ("end_date", PyVal.str v))).toList

/-- The conjunctive WHERE conditions `delete` builds, in source order: the
date-range condition first (only when both bounds are supplied; the
one-bound case never reaches the builder), then equality conditions for
id, date, category, subcategory, amount and note. -/
def deleteConditions (id : Option Nat) (date category subcategory : Option String)
    (amount : Option ℚ) (note : Option String) (start_date end_date : Option String) :
    List (ExpenseRecord → Bool) :=
  ((match start_date, end_date with
    | some s, some e => [fun r => dateInRange s e r.date]
    | _, _ => []) : List (ExpenseRecord → Bool)) ++
  (id.map (fun v => fun r => r.id == v)).toList ++
  (date.map (fun v => fun r => r.date == v)).toList ++
  (category.map (fun v => fun r => r.category == v)).toList ++
  (subcategory.map (fun v => fun r => r.subcategory == v)).toList ++
  (amount.map (fun v => fun r => r.amount == v)).toList ++
  (note.map (fun v => fun r => r.note == v)).toList

/-- Conjunction of all built conditions: a row is deleted iff every
condition holds, mirroring `" AND ".join(conditions)`. -/
def deleteMatches (id : Option Nat) (date category subcategory : Option String)
    (amount : Option ℚ) (note : Option String) (start_date end_date : Option String)
    (r : ExpenseRecord) : Bool :=
  (deleteConditions id date category subcategory amount note start_date end_date).all
    (fun c => c r)

/-- Tool `delete(id, date, category, subcategory, amount, note, start_date,
end_date)`: reject when exactly one range bound is supplied (the source's
`elif start_date is not None or end_date is not None`), reject when zero
conditions were built, otherwise run the DELETE; `cur.rowcount` is the number
of removed rows, and only the positive-count branch echoes the criteria. -/
def delete (db : DB) (id : Option Nat) (date category subcategory : Option String)
    (amount : Option ℚ) (note : Option String) (start_date end_date : Option String) :
    DeleteResult × DB :=
  if start_date.isSome != end_date.isSome then
    (.errorRes "Both start_date and end_date must be provided for date range", db)
  else if (deleteConditions id date category subcategory amount note start_date end_date).isEmpty then
    (.errorRes "At least one filter parameter must be provided", db)
  else
    let deleted_count := (db.expenses.filter
      (deleteMatches id date category subcategory amount note start_date end_date)).length
    let remaining := db.expenses.filter (fun r =>
      !(deleteMatches id date category subcategory amount note start_date end_date r))
    if 0 < deleted_count then
      (.successRes ("Successfully deleted " ++ toString deleted_count ++ " expense(s)")
        deleted_count
        (suppliedCriteria id date category subcategory amount note start_date end_date),
        ⟨remaining, db.nextId⟩)
    else
      (.warningRes "No expenses found matching the criteria" 0, ⟨remaining, db.nextId⟩)

/-- One client call, for reasoning about single-writer operation sequences. -/
inductive Op where
  | addOp (date : String) (amount : ℚ) (category subcategory note : String)
  | updateOp (cid : Nat) (date : Option String) (amount : Option ℚ)
      (category subcategory note : Option String)
  | deleteOp (id : Option Nat) (date category subcategory : Option String)
      (amount : Option ℚ) (note : Option String) (start_date end_date : Option String)
  | listOp (start_date end_date : String)
  | summarizeOp (start_date end_date category : String)

/-- State after one operation. -/
def step (db : DB) : Op → DB
  | .addOp d a c sc n => (add_expense db d a c sc n).2
  | .updateOp cid d a c sc n => (update db cid d a c sc n).2
  | .deleteOp i d c sc a n sd ed => (delete db i d c sc a n sd ed).2
  | .listOp sd ed => (list_expenses db sd ed).2
  | .summarizeOp _ _ _ => db

/-- Ids handed out by one operation: only `add_expense` returns an id. -/
def opAssigns (db : DB) : Op → List Nat
  | .addOp d a c sc n => [(add_expense db d a c sc n).1.id]
  | _ => []

/-- Ids handed out by `add_expense`, in call order, along a run from `db`. -/
def assignedIds (db : DB) : List Op → List Nat
  | [] => []
  | op :: ops => opAssigns db op ++ assignedIds (step db op) ops

/-- Concrete rows used to instantiate the universally quantified theorems. -/
def recW1 : ExpenseRecord := ⟨1, "2024-01-05", 12.5, "food", "", ""⟩

/-- Second concrete row; same category as `recW1`, later date. -/
def recW2 : ExpenseRecord := ⟨2, "2024-01-10", 7.5, "food", "", ""⟩

/-- Concrete database holding `recW1` and `recW2`. -/
def dbW : DB := ⟨[recW1, recW2], 3⟩

/-- Concrete operation run: two inserts with a delete of the first row in
between, to instantiate the id-monotonicity theorem. -/
def opsW : List Op :=
  [.addOp "2024-01-05" 12.5 "food" "" "",
   .deleteOp (some 1) none none none none none none none,
   .addOp "2024-01-10" 7.5 "food" "" ""]

/-- Specification-side description of one `summarize` output row, written
from the claim: the total is the sum of `amount` over exactly the stored
records that pass the date-range filter, the optional category filter, and
belong to the row's category; and at least one stored record matches the
row's category, so no empty group is reported. -/
def summarizeRowSpec (db : DB) (s e cat : String) (row : String × ℚ) : Prop :=
  row.2 = ((db.expenses.filter (fun r =>
      (r.category == row.1) &&
        (dateInRange s e r.date && (cat == "" || r.category == cat)))).map
      (fun r => r.amount)).sum ∧
  ∃ r ∈ db.expenses,
    (dateInRange s e r.date && (cat == "" || r.category == cat)) = true ∧
    r.category = row.1

/-- Specification-side description of the echoed criteria dict, written from
the claim: looking up each of the eight parameter keys yields exactly the
supplied value (absent parameters are absent from the dict), and the dict
has no further entries, its size being the number of supplied parameters. -/
def echoesSupplied (crit : List (String × PyVal)) (id : Option Nat)
    (date category subcategory : Option String) (amount : Option ℚ) (note : Option String)
    (start_date end_date : Option String) : Prop :=
  crit.lookup "id" = id.map PyVal.int ∧
  crit.lookup "date" = date.map PyVal.str ∧
  crit.lookup "category" = category.map PyVal.str ∧
  crit.lookup "subcategory" = subcategory.map PyVal.str ∧
  crit.lookup "amount" = amount.map PyVal.num ∧
  crit.lookup "note" = note.map PyVal.str ∧
  crit.lookup "start_date" = start_date.map PyVal.str ∧
  crit.lookup "end_date" = end_date.map PyVal.str ∧
  crit.length = id.toList.length + date.toList.length + category.toList.length +
    subcategory.toList.length + amount.toList.length + note.toList.length +
    start_date.toList.length + end_date.toList.length

theorem length_filter_not_add {α : Type} (p : α → Bool) (l : List α) :
    (l.filter p).length + (l.filter (fun a => !(p a))).length = l.length := by
  induction l with
  | nil => rfl
  | cons a l ih => cases h : p a <;> simp [List.filter_cons, h] <;> omega

theorem update_state_eq (db : DB) (cid : Nat) (date : Option String) (amount : Option ℚ)
    (category subcategory note : Option String)
    (h : (date.isNone && amount.isNone && category.isNone && subcategory.isNone &&
      note.isNone) = false) :
    (update db cid date amount category subcategory note).2 =
      ⟨db.expenses.map (fun r =>
        if r.id == cid then applySet date amount category subcategory note r else r),
        db.nextId⟩ := by
  rw [update, if_neg (by simp [h])]
  dsimp only
  split <;> rfl

/-- C2: list_expenses returns exactly the stored records (same multiset)
whose date lies lexicographically within the inclusive range
[start_date, end_date], ordered by ascending id, and its state component is
the unchanged input state. -/
theorem list_expenses_correct (db : DB) (s e : String) :
    List.Perm (list_expenses db s e).1
      (db.expenses.filter (fun r => dateInRange s e r.date)) ∧
    (list_expenses db s e).1.Sorted (fun a b => a.id ≤ b.id) ∧
    (∀ r, r ∈ (list_expenses db s e).1 ↔ r ∈ db.expenses ∧ dateInRange s e r.date = true) ∧
    (list_expenses db s e).2 = db := by
  refine ⟨List.perm_insertionSort leById _, List.sorted_insertionSort leById _, ?_, rfl⟩
  intro r
  rw [list_expenses]
  rw [(List.perm_insertionSort leById _).mem_iff, List.mem_filter]

/-- Witness for C2 at a concrete state and range. -/
theorem list_expenses_correct_witness :
    List.Perm (list_expenses dbW "2024-01-01" "2024-01-07").1
      (dbW.expenses.filter (fun r => dateInRange "2024-01-01" "2024-01-07" r.date)) ∧
    (list_expenses dbW "2024-01-01" "2024-01-07").2 = dbW := by
  have h := list_expenses_correct dbW "2024-01-01" "2024-01-07"
  exact ⟨h.1, h.2.2.2⟩

/-- C3: calling update with all five optional fields absent returns the bare
Python set literal containing the message string — a value with neither a
status nor an error key, so not a structured status/error object — and
leaves the database state (in particular every stored record) unchanged. -/
theorem update_no_fields_returns_bare_set (db : DB) (cid : Nat) :
    update db cid none none none none none =
      (UpdateResult.setMsg "No fields provided to update", db) ∧
    ((update db cid none none none none none).1).isStatusOrErrorObject = false :=
  ⟨rfl, rfl⟩

/-- C4: delete with all eight parameters absent is rejected with the
no-filter-criteria error and returns the state unchanged. -/
theorem delete_no_criteria_rejected (db : DB) :
    delete db none none none none none none none none =
      (DeleteResult.errorRes "At least one filter parameter must be provided", db) := rfl

/-- Witness for C4 at a concrete state. -/
theorem delete_no_criteria_rejected_witness :
    delete dbW none none none none none none none none =
      (DeleteResult.errorRes "At least one filter parameter must be provided", dbW) :=
  delete_no_criteria_rejected dbW

/-- C5: whenever exactly one of start_date/end_date is supplied, delete is
rejected with the missing-range-bound error regardless of the other
criteria, and the state, hence the expense table, is unchanged. -/
theorem delete_missing_range_bound (db : DB) (id : Option Nat)
    (date category subcategory : Option String) (amount : Option ℚ) (note : Option String)
    (start_date end_date : Option String)
    (h : start_date.isSome ≠ end_date.isSome) :
    delete db id date category subcategory amount note start_date end_date =
      (DeleteResult.errorRes "Both start_date and end_date must be provided for date range",
        db) := by
  have hb : (start_date.isSome != end_date.isSome) = true := by
    simp [bne_iff_ne, h]
  rw [delete, if_pos hb]

/-- Witness for C5: start_date supplied, end_date absent, other criteria
present. -/
theorem delete_missing_range_bound_witness :
    delete dbW (some 1) none (some "food") none none none (some "2024-01-01") none =
      (DeleteResult.errorRes "Both start_date and end_date must be provided for date range",
        dbW) :=
  delete_missing_range_bound dbW (some 1) none (some "food") none none none
    (some "2024-01-01") none (by decide)

/-- C7: after inserting a record, a list query whose bounds cover the
record's date returns a record agreeing with the insert on every field,
carrying the freshly assigned id. -/
theorem add_then_list_roundtrip (db : DB) (d : String) (a : ℚ) (c sc n s e : String)
    (h1 : strLe s d = true) (h2 : strLe d e = true) :
    ∃ r ∈ (list_expenses (add_expense db d a c sc n).2 s e).1,
      r.date = d ∧ r.amount = a ∧ r.category = c ∧ r.subcategory = sc ∧ r.note = n ∧
      r.id = (add_expense db d a c sc n).1.id := by
  refine ⟨⟨db.nextId, d, a, c, sc, n⟩, ?_, rfl, rfl, rfl, rfl, rfl, rfl⟩
  rw [list_expenses]
  apply (List.perm_insertionSort leById _).mem_iff.mpr
  apply List.mem_filter.mpr
  exact ⟨List.mem_append_right _ (List.mem_singleton_self _), by simp [dateInRange, h1, h2]⟩

/-- Witness for C7 with a concrete record and covering range. -/
theorem add_then_list_roundtrip_witness :
    ∃ r ∈ (list_expenses (add_expense init_db "2024-01-05" 12.5 "food" "" "").2
        "2024-01-01" "2024-01-31").1,
      r.date = "2024-01-05" ∧ r.amount = 12.5 ∧ r.category = "food" ∧ r.subcategory = "" ∧
      r.note = "" ∧ r.id = (add_expense init_db "2024-01-05" 12.5 "food" "" "").1.id :=
  add_then_list_roundtrip init_db "2024-01-05" 12.5 "food" "" "" "2024-01-01" "2024-01-31"
    (by decide) (by decide)

/-- C1: every summarize output row carries as total the sum of amount over
exactly the stored records matching the date range, the optional category
filter and the row's category; at least one stored record matches each
reported row, so no empty group appears; and the rows are sorted by
ascending total. -/
theorem summarize_totals_sorted_correct (db : DB) (s e cat : String) :
    (∀ row ∈ summarize db s e cat, summarizeRowSpec db s e cat row) ∧
    (summarize db s e cat).Sorted (fun a b => a.2 ≤ b.2) := by
  constructor
  · intro row hrow
    simp only [summarize] at hrow
    have hrow2 := (List.perm_insertionSort leByTotal _).mem_iff.mp hrow
    rw [List.mem_map] at hrow2
    obtain ⟨c, hc, hrc⟩ := hrow2
    subst hrc
    rw [List.mem_dedup, List.mem_map] at hc
    obtain ⟨r0, hr0, hr0c⟩ := hc
    have hr0m := List.mem_filter.mp hr0
    constructor
    · dsimp only
      rw [List.filter_filter]
    · exact ⟨r0, hr0m.1, hr0m.2, hr0c⟩
  · exact List.sorted_insertionSort leByTotal _

/-- Witness for C1 at a concrete state: the single reported row. -/
theorem summarize_totals_sorted_correct_witness :
    ("food", (20 : ℚ)) ∈ summarize dbW "2024-01-01" "2024-01-31" "" ∧
    summarizeRowSpec dbW "2024-01-01" "2024-01-31" "" ("food", 20) ∧
    (summarize dbW "2024-01-01" "2024-01-31" "").Sorted (fun a b => a.2 ≤ b.2) := by
  have h := summarize_totals_sorted_correct dbW "2024-01-01" "2024-01-31" ""
  have hm : ("food", (20 : ℚ)) ∈ summarize dbW "2024-01-01" "2024-01-31" "" := by
    with_unfolding_all decide
  exact ⟨hm, h.1 _ hm, h.2⟩

/-- C6: update of an id that is absent from the table, with at least one
field supplied, returns the structured not-found dict, which is a different
value from the validation rejection and from every row-list result. -/
theorem update_not_found (db : DB) (cid : Nat) (date : Option String) (amount : Option ℚ)
    (category subcategory note : Option String)
    (hfields : (date.isNone && amount.isNone && category.isNone && subcategory.isNone &&
      note.isNone) = false)
    (hid : ∀ r ∈ db.expenses, r.id ≠ cid) :
    (update db cid date amount category subcategory note).1 =
      UpdateResult.errorDict ("No expense found with id " ++ toString cid) ∧
    (∀ m, (update db cid date amount category subcategory note).1 ≠ UpdateResult.setMsg m) ∧
    (∀ rs, (update db cid date amount category subcategory note).1 ≠
      UpdateResult.rowList rs) := by
  have hrows : (db.expenses.map (fun r =>
      if r.id == cid then applySet date amount category subcategory note r else r)).filter
      (fun r => r.id == cid) = [] := by
    rw [List.filter_eq_nil_iff]
    intro r hr
    rw [List.mem_map] at hr
    obtain ⟨r0, hr0, hfr⟩ := hr
    have hne : (r0.id == cid) = false := beq_eq_false_iff_ne.mpr (hid r0 hr0)
    simp only [hne, Bool.false_eq_true, if_false] at hfr
    subst hfr
    simp [hne]
  have h1 : (update db cid date amount category subcategory note).1 =
      UpdateResult.errorDict ("No expense found with id " ++ toString cid) := by
    rw [update, if_neg (by simp [hfields])]
    dsimp only
    rw [hrows]
    rfl
  refine ⟨h1, ?_, ?_⟩
  · intro m
    rw [h1]
    intro hcon
    exact UpdateResult.noConfusion hcon
  · intro rs
    rw [h1]
    intro hcon
    exact UpdateResult.noConfusion hcon

/-- Witness for C6: id 7 is absent from the concrete table. -/
theorem update_not_found_witness :
    (update dbW 7 none (some 1) none none none).1 =
      UpdateResult.errorDict ("No expense found with id " ++ toString 7) :=
  (update_not_found dbW 7 none (some 1) none none none (by decide) (by decide)).1

/-- C10: an update call with at least one field supplied preserves the id
sequence of the table (no record inserted or deleted, no id changed), and
every record whose id differs from the target is left entirely unchanged. -/
theorem update_frame (db : DB) (cid : Nat) (date : Option String) (amount : Option ℚ)
    (category subcategory note : Option String)
    (hfields : (date.isNone && amount.isNone && category.isNone && subcategory.isNone &&
      note.isNone) = false) :
    ((update db cid date amount category subcategory note).2).expenses.map (fun r => r.id) =
      db.expenses.map (fun r => r.id) ∧
    ∀ (i : Nat) (r : ExpenseRecord), db.expenses[i]? = some r → r.id ≠ cid →
      ((update db cid date amount category subcategory note).2).expenses[i]? = some r := by
  rw [update_state_eq db cid date amount category subcategory note hfields]
  constructor
  · dsimp only
    rw [List.map_map]
    apply List.map_congr_left
    intro r hr
    by_cases hc : (r.id == cid) = true
    · simp [Function.comp, hc, applySet]
    · simp [Function.comp, hc]
  · intro i r hir hne
    dsimp only
    rw [List.getElem?_map, hir]
    simp only [Option.map_some', Option.some.injEq]
    rw [if_neg (by simp [hne])]

/-- Witness for C10: updating the amount of record 1 leaves record 2 (at
index 1) unchanged and preserves the id sequence. -/
theorem update_frame_witness :
    ((update dbW 1 none (some 1) none none none).2).expenses.map (fun r => r.id) =
      dbW.expenses.map (fun r => r.id) ∧
    ((update dbW 1 none (some 1) none none none).2).expenses[1]? = some recW2 := by
  have h := update_frame dbW 1 none (some 1) none none none (by decide)
  exact ⟨h.1, h.2 1 recW2 rfl (by decide)⟩

theorem update_nextId (db : DB) (cid : Nat) (date : Option String) (amount : Option ℚ)
    (category subcategory note : Option String) :
    ((update db cid date amount category subcategory note).2).nextId = db.nextId := by
  rw [update]
  split
  · rfl
  · dsimp only
    split <;> rfl

theorem delete_nextId (db : DB) (id : Option Nat) (date category subcategory : Option String)
    (amount : Option ℚ) (note : Option String) (start_date end_date : Option String) :
    ((delete db id date category subcategory amount note start_date end_date).2).nextId =
      db.nextId := by
  rw [delete]
  split
  · rfl
  · split
    · rfl
    · dsimp only
      split <;> rfl

theorem nextId_le_step (db : DB) (op : Op) : db.nextId ≤ (step db op).nextId := by
  cases op with
  | addOp d a c sc n => exact Nat.le_succ _
  | updateOp cid d a c sc n => exact le_of_eq (update_nextId db cid d a c sc n).symm
  | deleteOp i d c sc a n sd ed => exact le_of_eq (delete_nextId db i d c sc a n sd ed).symm
  | listOp sd ed => exact Nat.le_refl _
  | summarizeOp sd ed c => exact Nat.le_refl _

theorem mem_opAssigns (db : DB) (op : Op) (x : Nat) (hx : x ∈ opAssigns db op) :
    x = db.nextId ∧ x < (step db op).nextId := by
  cases op with
  | addOp d a c sc n =>
    rw [opAssigns, List.mem_singleton] at hx
    exact ⟨hx, by rw [hx]; exact Nat.lt_succ_self _⟩
  | updateOp cid d a c sc n => cases hx
  | deleteOp i d c sc a n sd ed => cases hx
  | listOp sd ed => cases hx
  | summarizeOp sd ed c => cases hx

theorem assignedIds_lower_bound (ops : List Op) (db : DB) (x : Nat)
    (hx : x ∈ assignedIds db ops) : db.nextId ≤ x := by
  induction ops generalizing db with
  | nil => cases hx
  | cons op ops ih =>
    rw [assignedIds] at hx
    rcases List.mem_append.mp hx with h | h
    · exact le_of_eq (mem_opAssigns db op x h).1.symm
    · exact le_trans (nextId_le_step db op) (ih (step db op) h)

theorem assignedIds_pairwise (ops : List Op) (db : DB) :
    (assignedIds db ops).Pairwise (fun a b => a < b) := by
  induction ops generalizing db with
  | nil => exact List.Pairwise.nil
  | cons op ops ih =>
    rw [assignedIds]
    refine List.pairwise_append.mpr ⟨?_, ih (step db op), ?_⟩
    · cases op <;> simp [opAssigns]
    · intro x hx y hy
      exact lt_of_lt_of_le (mem_opAssigns db op x hx).2
        (assignedIds_lower_bound ops (step db op) y hy)

/-- C8: along any operation sequence from the initial state, the ids handed
out by add_expense are strictly increasing in call order; in particular no
id is ever assigned twice, even after deletes (the AUTOINCREMENT counter
never moves backwards). -/
theorem add_ids_strictly_monotone (ops : List Op) :
    (assignedIds init_db ops).Pairwise (fun a b => a < b) :=
  assignedIds_pairwise ops init_db

/-- Witness for C8: two inserts with a delete of the first row in between. -/
theorem add_ids_strictly_monotone_witness :
    (assignedIds init_db opsW).Pairwise (fun a b => a < b) :=
  add_ids_strictly_monotone opsW

theorem lookup_skip_block {α : Type} (k key : String) (g : α → PyVal) (o : Option α)
    (rest : List (String × PyVal)) (h : (k == key) = false) :
    List.lookup k ((o.map (fun v => (key, g v))).toList ++ rest) = List.lookup k rest := by
  cases o <;> simp [List.lookup, h]

theorem lookup_last_block {α : Type} (k key : String) (g : α → PyVal) (o : Option α)
    (h : (k == key) = false) :
    List.lookup k (o.map (fun v => (key, g v))).toList = none := by
  cases o <;> simp [List.lookup, h]

theorem lookup_own_block {α : Type} (k : String) (g : α → PyVal) (o : Option α)
    (rest : List (String × PyVal)) (h : List.lookup k rest = none) :
    List.lookup k ((o.map (fun v => (k, g v))).toList ++ rest) = o.map g := by
  cases o <;> simp [List.lookup, h]

theorem lookup_own_last {α : Type} (k : String) (g : α → PyVal) (o : Option α) :
    List.lookup k (o.map (fun v => (k, g v))).toList = o.map g := by
  cases o <;> simp [List.lookup]

theorem length_toList_block {α : Type} (key : String) (g : α → PyVal) (o : Option α) :
    ((o.map (fun v => (key, g v))).toList).length = o.toList.length := by
  cases o <;> rfl

theorem suppliedCriteria_echoes (id : Option Nat) (date category subcategory : Option String)
    (amount : Option ℚ) (note : Option String) (start_date end_date : Option String) :
    echoesSupplied
      (suppliedCriteria id date category subcategory amount note start_date end_date)
      id date category subcategory amount note start_date end_date := by
  unfold echoesSupplied suppliedCriteria
  simp only [List.append_assoc]
  refine ⟨?_, ?_, ?_, ?_, ?_, ?_, ?_, ?_, ?_⟩
  · apply lookup_own_block
    rw [lookup_skip_block _ _ _ _ _ (by decide), lookup_skip_block _ _ _ _ _ (by decide),
      lookup_skip_block _ _ _ _ _ (by decide), lookup_skip_block _ _ _ _ _ (by decide),
      lookup_skip_block _ _ _ _ _ (by decide), lookup_skip_block _ _ _ _ _ (by decide)]
    exact lookup_last_block _ _ _ _ (by decide)
  · rw [lookup_skip_block _ _ _ _ _ (by decide)]
    apply lookup_own_block
    rw [lookup_skip_block _ _ _ _ _ (by decide), lookup_skip_block _ _ _ _ _ (by decide),
      lookup_skip_block _ _ _ _ _ (by decide), lookup_skip_block _ _ _ _ _ (by decide),
      lookup_skip_block _ _ _ _ _ (by decide)]
    exact lookup_last_block _ _ _ _ (by decide)
  · rw [lookup_skip_block _ _ _ _ _ (by decide), lookup_skip_block _ _ _ _ _ (by decide)]
    apply lookup_own_block
    rw [lookup_skip_block _ _ _ _ _ (by decide), lookup_skip_block _ _ _ _ _ (by decide),
      lookup_skip_block _ _ _ _ _ (by decide), lookup_skip_block _ _ _ _ _ (by decide)]
    exact lookup_last_block _ _ _ _ (by decide)
  · rw [lookup_skip_block _ _ _ _ _ (by decide), lookup_skip_block _ _ _ _ _ (by decide),
      lookup_skip_block _ _ _ _ _ (by decide)]
    apply lookup_own_block
    rw [lookup_skip_block _ _ _ _ _ (by decide), lookup_skip_block _ _ _ _ _ (by decide),
      lookup_skip_block _ _ _ _ _ (by decide)]
    exact lookup_last_block _ _ _ _ (by decide)
  · rw [lookup_skip_block _ _ _ _ _ (by decide), lookup_skip_block _ _ _ _ _ (by decide),
      lookup_skip_block _ _ _ _ _ (by decide), lookup_skip_block _ _ _ _ _ (by decide)]
    apply lookup_own_block
    rw [lookup_skip_block _ _ _ _ _ (by decide), lookup_skip_block _ _ _ _ _ (by decide)]
    exact lookup_last_block _ _ _ _ (by decide)
  · rw [lookup_skip_block _ _ _ _ _ (by decide), lookup_skip_block _ _ _ _ _ (by decide),
      lookup_skip_block _ _ _ _ _ (by decide), lookup_skip_block _ _ _ _ _ (by decide),
      lookup_skip_block _ _ _ _ _ (by decide)]
    apply lookup_own_block
    rw [lookup_skip_block _ _ _ _ _ (by decide)]
    exact lookup_last_block _ _ _ _ (by decide)
  · rw [lookup_skip_block _ _ _ _ _ (by decide), lookup_skip_block _ _ _ _ _ (by decide),
      lookup_skip_block _ _ _ _ _ (by decide), lookup_skip_block _ _ _ _ _ (by decide),
      lookup_skip_block _ _ _ _ _ (by decide), lookup_skip_block _ _ _ _ _ (by decide)]
    apply lookup_own_block
    exact lookup_last_block _ _ _ _ (by decide)
  · rw [lookup_skip_block _ _ _ _ _ (by decide), lookup_skip_block _ _ _ _ _ (by decide),
      lookup_skip_block _ _ _ _ _ (by decide), lookup_skip_block _ _ _ _ _ (by decide),
      lookup_skip_block _ _ _ _ _ (by decide), lookup_skip_block _ _ _ _ _ (by decide),
      lookup_skip_block _ _ _ _ _ (by decide)]
    exact lookup_own_last _ _ _
  · simp only [List.length_append, length_toList_block]
    omega

/-- C9 counterexample: a delete call that passes validation (category is
supplied) but removes zero rows returns the warning dict with
deleted_count 0 and carries no criteria key at all, contradicting the claim
that every validated delete result contains a criteria echo. -/
theorem delete_zero_affected_no_criteria :
    ((delete init_db none none (some "food") none none none none none).1).criteriaEcho =
      none ∧
    ((delete init_db none none (some "food") none none none none none).1).status =
      "warning" ∧
    ((delete init_db none none (some "food") none none none none none).1).deletedCount =
      some 0 :=
  ⟨rfl, rfl, rfl⟩

/-- C9 (amended): every delete call that passes validation reports the exact
count of removed rows as deleted_count; a zero-affected call is reported as
a warning-status result without a criteria echo; a call that removed at
least one row is reported as a success-status result whose criteria dict
echoes exactly the supplied non-absent parameters. -/
theorem delete_validated_reports (db : DB) (id : Option Nat)
    (date category subcategory : Option String) (amount : Option ℚ) (note : Option String)
    (start_date end_date : Option String)
    (hrange : start_date.isSome = end_date.isSome)
    (hconds :
      deleteConditions id date category subcategory amount note start_date end_date ≠ []) :
    ((delete db id date category subcategory amount note start_date end_date).1).deletedCount =
      some (db.expenses.length -
        ((delete db id date category subcategory amount note start_date
          end_date).2).expenses.length) ∧
    (((delete db id date category subcategory amount note start_date
        end_date).1).deletedCount = some 0 →
      ((delete db id date category subcategory amount note start_date end_date).1).status =
        "warning" ∧
      ((delete db id date category subcategory amount note start_date
        end_date).1).criteriaEcho = none) ∧
    (∀ n : Nat,
      ((delete db id date category subcategory amount note start_date
        end_date).1).deletedCount = some n → 0 < n →
      ((delete db id date category subcategory amount note start_date end_date).1).status =
        "success" ∧
      ((delete db id date category subcategory amount note start_date
        end_date).1).criteriaEcho =
        some (suppliedCriteria id date category subcategory amount note start_date end_date) ∧
      echoesSupplied
        (suppliedCriteria id date category subcategory amount note start_date end_date)
        id date category subcategory amount note start_date end_date) := by
  have hb : (start_date.isSome != end_date.isSome) = false := by
    rw [hrange]
    exact bne_self_eq_false _
  have hemp : (deleteConditions id date category subcategory amount note start_date
      end_date).isEmpty = false := by
    rcases hh : deleteConditions id date category subcategory amount note start_date end_date
      with _ | ⟨c, cs⟩
    · exact absurd hh hconds
    · rfl
  rw [delete, if_neg (by simp [hb]), if_neg (by simp [hemp])]
  dsimp only
  set P := deleteMatches id date category subcategory amount note start_date end_date
  have hcount := length_filter_not_add P db.expenses
  by_cases hpos : 0 < (db.expenses.filter P).length
  · rw [if_pos hpos]
    refine ⟨?_, ?_, ?_⟩
    · simp only [DeleteResult.deletedCount]
      congr 1
      omega
    · intro h0
      simp only [DeleteResult.deletedCount, Option.some.injEq] at h0
      omega
    · intro n hn hnpos
      exact ⟨rfl, rfl,
        suppliedCriteria_echoes id date category subcategory amount note start_date end_date⟩
  · rw [if_neg hpos]
    have h0 : (db.expenses.filter P).length = 0 := Nat.eq_zero_of_not_pos hpos
    refine ⟨?_, fun _ => ⟨rfl, rfl⟩, ?_⟩
    · simp only [DeleteResult.deletedCount]
      congr 1
      omega
    · intro n hn hnpos
      simp only [DeleteResult.deletedCount, Option.some.injEq] at hn
      omega

/-- Witness for C9 (amended) at a concrete state: a zero-affected validated
delete is a warning with no criteria echo. -/
theorem delete_validated_reports_witness :
    ((delete init_db none none (some "food") none none none none none).1).status =
      "warning" ∧
    ((delete init_db none none (some "food") none none none none none).1).criteriaEcho =
      none := by
  have h := delete_validated_reports init_db none none (some "food") none none none none none
    rfl (by simp [deleteConditions])
  exact h.2.1 rfl

end ExpenseTracker
